import Mathlib

/-
Verification of the patient data-loading and view-state coordinator of
MoodProblemsApp, shallowly embedded from
src/src/components/screens/PatientInfoScreen.tsx and the history screen
(src/unnamed/part_000).  React state setters become pure updates on an
explicit ViewState record; side effects (alerts, navigation, service
invocations) become an explicit effect list; the platform Date parser is
abstracted as an explicit parameter.
-/

/-- Diagnosis, from PatientInfoScreen.tsx lines 17-21:
{history_id : number, date : string, time : string}. -/
structure Diagnosis where
  history_id : Int
  date : String
  time : String
deriving DecidableEq

/-- PatientDetails, from PatientInfoScreen.tsx lines 23-30. -/
structure PatientDetails where
  name : String
  phone : String
  email : String
  age : Int
  sex : String
  height : Int
deriving DecidableEq

/-- A raw history item as returned by getPatientHistory (typed `any` in the
source): it carries at least history_id, date and time, and possibly extra
fields the screen discards. -/
structure RawHistoryItem where
  history_id : Int
  date : String
  time : String
  extraFields : List (String × String)
deriving DecidableEq

/-- The mapping applied to each raw item at PatientInfoScreen.tsx lines 57-61:
item is reduced to exactly the history_id, date and time fields. -/
def toDiagnosis (item : RawHistoryItem) : Diagnosis :=
  { history_id := item.history_id, date := item.date, time := item.time }

/-- The component state, one field per useState hook at
PatientInfoScreen.tsx lines 41-49. -/
structure ViewState where
  diagnoses : List Diagnosis
  patientDetails : Option PatientDetails
  loading : Bool
  refreshing : Bool
  pressedDiagnosisId : Option Int
deriving DecidableEq

/-- The initial state: useState initial values at lines 41-49
(diagnoses = [], patientDetails = null, loading = true, refreshing = false,
pressedDiagnosisId = null). -/
def initialState : ViewState :=
  { diagnoses := []
    patientDetails := none
    loading := true
    refreshing := false
    pressedDiagnosisId := none }

/-- Observable side effects of the handlers: Alert.alert dialogs,
navigation.goBack, and invocations of the two PatientService calls. -/
inductive Effect where
  | alert (title : String) (msg : String)
  | goBack
  | invokeGetPatientData
  | invokeGetPatientHistory
deriving DecidableEq

/-- Recognizes the goBack navigation signal among effects. -/
def isGoBack : Effect → Bool
  | Effect.goBack => true
  | _ => false

/-- fetchPatientHistory (PatientInfoScreen.tsx lines 53-68) after the awaited
getPatientHistory call settles with `result`.  On success the diagnoses are
replaced by the mapped sequence; on failure Alert.alert fires with the error
message; the finally block clears refreshing in both cases. -/
def fetchPatientHistory (result : Except String (List RawHistoryItem))
    (s : ViewState) : ViewState × List Effect :=
  match result with
  | Except.ok historyData =>
      ({ s with diagnoses := historyData.map toDiagnosis, refreshing := false },
       [])
  | Except.error msg =>
      ({ s with refreshing := false }, [Effect.alert "Error" msg])

/-- fetchPatientData (PatientInfoScreen.tsx lines 71-81) after the awaited
getPatientData call settles with `result`.  On success the record is stored;
on failure Alert.alert fires and navigation.goBack is signalled; the finally
block clears loading in both cases. -/
def fetchPatientData (result : Except String PatientDetails)
    (s : ViewState) : ViewState × List Effect :=
  match result with
  | Except.ok data =>
      ({ s with patientDetails := some data, loading := false }, [])
  | Except.error msg =>
      ({ s with loading := false }, [Effect.alert "Error" msg, Effect.goBack])

/-- The mount effect (PatientInfoScreen.tsx lines 83-84): useEffect invokes
fetchPatientData() and fetchPatientHistory(), i.e. both service calls. -/
def mountInvokes : List Effect :=
  [Effect.invokeGetPatientData, Effect.invokeGetPatientHistory]

/-- onRefresh (PatientInfoScreen.tsx lines 87-90): synchronously sets
refreshing to true and invokes fetchPatientHistory, i.e. only the
getPatientHistory service call. -/
def onRefresh (s : ViewState) : ViewState × List Effect :=
  ({ s with refreshing := true }, [Effect.invokeGetPatientHistory])

/-- handleRowPressIn (lines 102-109): records the pressed row id.  The
Animated.timing scale transform is presentation-only and carries no data. -/
def handleRowPressIn (id : Int) (s : ViewState) : ViewState :=
  { s with pressedDiagnosisId := some id }

/-- handleRowPressOut (lines 111-118): clears the pressed row id. -/
def handleRowPressOut (s : ViewState) : ViewState :=
  { s with pressedDiagnosisId := none }

/-- handleRowPress (lines 120-122): clears the pressed row id and does
nothing else (no navigation, no data effect). -/
def handleRowPress (id : Int) (s : ViewState) : ViewState :=
  { s with pressedDiagnosisId := none }

/-- Events that can reach the coordinator after mount: a settled record
fetch, a settled history fetch (initial or refresh), a pull-to-refresh
gesture, and the three row-press interactions. -/
inductive Event where
  | recordSettled (r : Except String PatientDetails)
  | historySettled (r : Except String (List RawHistoryItem))
  | refreshPressed
  | pressIn (id : Int)
  | pressOut
  | press (id : Int)

/-- True exactly on the event that settles the patient-record fetch. -/
def Event.isRecordSettled : Event → Bool
  | Event.recordSettled _ => true
  | _ => false

/-- Dispatch of one event to the handler the source binds it to. -/
def step (e : Event) (s : ViewState) : ViewState × List Effect :=
  match e with
  | Event.recordSettled r => fetchPatientData r s
  | Event.historySettled r => fetchPatientHistory r s
  | Event.refreshPressed => onRefresh s
  | Event.pressIn id => (handleRowPressIn id s, [])
  | Event.pressOut => (handleRowPressOut s, [])
  | Event.press id => (handleRowPress id s, [])

/-- The state reached from the mount state after a sequence of events. -/
def runTrace (es : List Event) : ViewState :=
  es.foldl (fun t e => (step e t).fst) initialState

/-- The result of the platform constructor `new Date(s)`: either a date whose
local calendar fields are year (getFullYear), month0 (getMonth, 0-based) and
day (getDate), or an Invalid Date, all of whose getters return NaN. -/
inductive JSDate where
  | valid (year : Int) (month0 : Nat) (day : Nat)
  | invalid
deriving DecidableEq

/-- date.getFullYear(): none models NaN (Invalid Date). -/
def getFullYear : JSDate → Option Int
  | JSDate.valid y _ _ => some y
  | JSDate.invalid => none

/-- date.getMonth(), 0-based: none models NaN. -/
def getMonth : JSDate → Option Nat
  | JSDate.valid _ m _ => some m
  | JSDate.invalid => none

/-- date.getDate(): none models NaN. -/
def getDate : JSDate → Option Nat
  | JSDate.valid _ _ d => some d
  | JSDate.invalid => none

/-- JavaScript String(n) on an integer-or-NaN number. -/
def jsNumStr : Option Int → String
  | some n => toString n
  | none => "NaN"

/-- JavaScript String(n) on a nonnegative-integer-or-NaN number. -/
def jsNatStr : Option Nat → String
  | some n => toString n
  | none => "NaN"

/-- JavaScript s.padStart(2, c-zero): prepends zeros up to length 2; a string
already of length at least 2 is returned unchanged. -/
def padStart2 (s : String) : String :=
  if 2 ≤ s.length then s else String.mk (List.replicate (2 - s.length) '0') ++ s

/-- formatDate (PatientInfoScreen.tsx lines 32-38), with the platform Date
parser abstracted as `parse`.  Builds year-month-day from the local calendar
fields, month and day zero-padded via padStart(2).  The history screen
(src/unnamed/part_000) imports an identically specified formatDate from a
file outside this snapshot; per the spec it is this same pure function. -/
def formatDate (parse : String → JSDate) (dateString : String) : String :=
  let date := parse dateString
  jsNumStr (getFullYear date) ++ "-"
    ++ padStart2 (jsNatStr (Option.map (fun m => m + 1) (getMonth date))) ++ "-"
    ++ padStart2 (jsNatStr (getDate date))

/-- formatDateAndTime (src/unnamed/part_000 lines 16-18):
the formatted date, a single space, then the time string unchanged. -/
def formatDateAndTime (parse : String → JSDate) (date : String)
    (time : String) : String :=
  formatDate parse date ++ " " ++ time

/-- Zero-padded two-digit decimal rendering of a small number; the spec's
notion of a zero-padded calendar field. -/
def zeroPad2 (n : Nat) : String :=
  if n < 10 then "0" ++ toString n else toString n

/-- The diagnosis-history area of the rendered screen (the ternary at
PatientInfoScreen.tsx lines 192-222): either the empty-state message alone,
or the table rows together with a flag for the mounted RefreshControl. -/
inductive HistoryBlock where
  | emptyMessage (text : String)
  | table (rows : List Diagnosis) (withRefreshControl : Bool)
deriving DecidableEq

/-- The empty-state message text at PatientInfoScreen.tsx lines 193-195. -/
def noDiagnosesText : String :=
  "Ups, parece que aún no tiene diagnósticos en el historial."

/-- Rendering of the history area from the state: when diagnoses.length is 0
only the message renders; otherwise the FlatList renders with its
RefreshControl (lines 206-220). -/
def renderHistoryBlock (s : ViewState) : HistoryBlock :=
  if s.diagnoses.length = 0 then HistoryBlock.emptyMessage noDiagnosesText
  else HistoryBlock.table s.diagnoses true

/-- Whether the rendered history area mounts a RefreshControl, i.e. whether
the pull-to-refresh gesture is reachable. -/
def hasRefreshControl : HistoryBlock → Bool
  | HistoryBlock.emptyMessage _ => false
  | HistoryBlock.table _ rc => rc

/-- On the decimal renderings of numbers below 100, JavaScript padStart(2)
agrees with two-digit zero-padding. -/
theorem padStart2_eq_zeroPad2 : ∀ n : Nat, n < 100 →
    padStart2 (toString n) = zeroPad2 n := by decide

/-- C1: a successful history fetch, whatever the prior state (including empty
diagnoses), replaces diagnoses wholesale by the returned sequence mapped
element-wise to {history_id, date, time} in order, yields a diagnoses list of
the same length as the input, and clears refreshing. -/
theorem fetchPatientHistory_success (s : ViewState) (l : List RawHistoryItem) :
    (fetchPatientHistory (Except.ok l) s).fst.diagnoses = l.map toDiagnosis
    ∧ (fetchPatientHistory (Except.ok l) s).fst.diagnoses.length = l.length
    ∧ (fetchPatientHistory (Except.ok l) s).fst.refreshing = false := by
  refine ⟨rfl, ?_, rfl⟩
  simp [fetchPatientHistory]

/-- C2: a failing history fetch surfaces an error alert carrying the failure
message, clears refreshing, and leaves diagnoses (and every other state
field) exactly as before. -/
theorem fetchPatientHistory_failure (s : ViewState) (msg : String) :
    (fetchPatientHistory (Except.error msg) s).fst.diagnoses = s.diagnoses
    ∧ (fetchPatientHistory (Except.error msg) s).fst.refreshing = false
    ∧ (fetchPatientHistory (Except.error msg) s).fst.patientDetails
        = s.patientDetails
    ∧ (fetchPatientHistory (Except.error msg) s).fst.loading = s.loading
    ∧ (fetchPatientHistory (Except.error msg) s).fst.pressedDiagnosisId
        = s.pressedDiagnosisId
    ∧ Effect.alert "Error" msg ∈ (fetchPatientHistory (Except.error msg) s).snd
    := by
  refine ⟨rfl, rfl, rfl, rfl, rfl, ?_⟩
  simp [fetchPatientHistory]

/-- C3: a failing record fetch clears loading, fires an error alert with the
failure message and exactly one goBack signal; a successful record fetch
stores the record, clears loading and fires no goBack. -/
theorem fetchPatientData_settles (s : ViewState) (msg : String)
    (data : PatientDetails) :
    ((fetchPatientData (Except.error msg) s).fst.loading = false
      ∧ Effect.alert "Error" msg ∈ (fetchPatientData (Except.error msg) s).snd
      ∧ List.countP isGoBack (fetchPatientData (Except.error msg) s).snd = 1)
    ∧ ((fetchPatientData (Except.ok data) s).fst.patientDetails = some data
      ∧ (fetchPatientData (Except.ok data) s).fst.loading = false
      ∧ List.countP isGoBack (fetchPatientData (Except.ok data) s).snd = 0)
    := by
  refine ⟨⟨rfl, ?_, ?_⟩, rfl, rfl, ?_⟩ <;>
    simp [fetchPatientData, isGoBack, List.countP_cons]

/-- C4: on any input the platform parses to a valid date, formatDate returns
the year, the zero-padded month and the zero-padded day of the local calendar
fields, joined by hyphens. -/
theorem formatDate_valid_iso (parse : String → JSDate) (ds : String)
    (y : Int) (m0 d : Nat) (hp : parse ds = JSDate.valid y m0 d)
    (hm : m0 < 12) (hd : d ≤ 31) :
    formatDate parse ds = toString y ++ "-" ++ zeroPad2 (m0 + 1) ++ "-"
      ++ zeroPad2 d := by
  have hm2 : padStart2 (toString (m0 + 1)) = zeroPad2 (m0 + 1) :=
    padStart2_eq_zeroPad2 _ (by omega)
  have hd2 : padStart2 (toString d) = zeroPad2 d :=
    padStart2_eq_zeroPad2 _ (by omega)
  simp only [formatDate, hp, getFullYear, getMonth, getDate,
    Option.map_some', jsNumStr, jsNatStr, hm2, hd2]

/-- Witness for C4 at the parse of a concrete ISO date. -/
theorem formatDate_valid_iso_witness :
    formatDate (fun _ => JSDate.valid 2024 2 5) "2024-03-05" = "2024-03-05"
    := by
  have h := formatDate_valid_iso (fun _ => JSDate.valid 2024 2 5) "2024-03-05"
    2024 2 5 rfl (by decide) (by decide)
  rw [h]; decide

/-- C5: formatDateAndTime always returns the formatted date, one space, and
the unmodified time string; in particular, whenever the platform parses
"2024-03-05" to local fields 2024-03-05, the pair ("2024-03-05", "14:30")
formats to "2024-03-05 14:30". -/
theorem formatDateAndTime_spec :
    (∀ (parse : String → JSDate) (d t : String),
      formatDateAndTime parse d t = formatDate parse d ++ " " ++ t)
    ∧ ∀ parse : String → JSDate,
        parse "2024-03-05" = JSDate.valid 2024 2 5 →
        formatDateAndTime parse "2024-03-05" "14:30" = "2024-03-05 14:30" := by
  refine ⟨fun _ _ _ => rfl, fun parse hp => ?_⟩
  simp only [formatDateAndTime, formatDate, hp]
  decide

/-- Witness for C5 at a concrete parse function. -/
theorem formatDateAndTime_spec_witness :
    formatDateAndTime (fun _ => JSDate.valid 2024 2 5) "2024-03-05" "14:30"
      = "2024-03-05 14:30" :=
  formatDateAndTime_spec.2 (fun _ => JSDate.valid 2024 2 5) rfl

/-- C9: formatDate is total; when the input does not parse (Invalid Date),
every getter is NaN and the result is the literal "NaN-NaN-NaN" rather than
an error. -/
theorem formatDate_invalid_total (parse : String → JSDate) (ds : String)
    (hp : parse ds = JSDate.invalid) :
    formatDate parse ds = "NaN-NaN-NaN" := by
  simp only [formatDate, hp]
  decide

/-- Witness for C9 at a parse that rejects the input. -/
theorem formatDate_invalid_total_witness :
    formatDate (fun _ => JSDate.invalid) "not-a-date" = "NaN-NaN-NaN" :=
  formatDate_invalid_total (fun _ => JSDate.invalid) "not-a-date" rfl

/-- One step changes loading exactly by clearing it on a settled record
fetch: every other event preserves it. -/
theorem step_loading (e : Event) (s : ViewState) :
    (step e s).fst.loading = (s.loading && !(Event.isRecordSettled e)) := by
  cases e with
  | recordSettled r =>
      cases r <;> simp [step, fetchPatientData, Event.isRecordSettled]
  | historySettled r =>
      cases r <;> simp [step, fetchPatientHistory, Event.isRecordSettled]
  | refreshPressed => simp [step, onRefresh, Event.isRecordSettled]
  | pressIn id => simp [step, handleRowPressIn, Event.isRecordSettled]
  | pressOut => simp [step, handleRowPressOut, Event.isRecordSettled]
  | press id => simp [step, handleRowPress, Event.isRecordSettled]

/-- Folding any event sequence from any state: loading stays cleared once
cleared, and is cleared exactly by a settled record fetch. -/
theorem foldl_step_loading (es : List Event) : ∀ s : ViewState,
    (es.foldl (fun t e => (step e t).fst) s).loading
      = (s.loading && !(es.any Event.isRecordSettled)) := by
  induction es with
  | nil => intro s; simp
  | cons e es ih =>
      intro s
      simp [List.foldl_cons, List.any_cons, ih, step_loading, Bool.not_or,
        Bool.and_assoc]

/-- C6: loading starts true on mount, and in every reachable state loading
holds exactly while no patient-record fetch has settled, regardless of
whether (and how) the history fetch completed. -/
theorem loading_tracks_record_settle :
    initialState.loading = true
    ∧ ∀ es : List Event,
        (runTrace es).loading = !(es.any Event.isRecordSettled) := by
  refine ⟨rfl, fun es => ?_⟩
  rw [runTrace, foldl_step_loading]
  simp [initialState]

/-- C7: onRefresh sets refreshing, invokes only the history fetch (the
patient-data service is invoked on mount but never by a refresh), and the
whole refresh cycle — onRefresh followed by the settled history fetch —
leaves patientDetails, loading and pressedDiagnosisId unchanged and emits no
goBack. -/
theorem onRefresh_frame (s : ViewState)
    (r : Except String (List RawHistoryItem)) :
    (onRefresh s).fst.refreshing = true
    ∧ (onRefresh s).snd = [Effect.invokeGetPatientHistory]
    ∧ Effect.invokeGetPatientData ∈ mountInvokes
    ∧ (onRefresh s).fst.patientDetails = s.patientDetails
    ∧ (onRefresh s).fst.loading = s.loading
    ∧ (onRefresh s).fst.pressedDiagnosisId = s.pressedDiagnosisId
    ∧ (onRefresh s).fst.diagnoses = s.diagnoses
    ∧ (fetchPatientHistory r (onRefresh s).fst).fst.patientDetails
        = s.patientDetails
    ∧ (fetchPatientHistory r (onRefresh s).fst).fst.loading = s.loading
    ∧ (fetchPatientHistory r (onRefresh s).fst).fst.pressedDiagnosisId
        = s.pressedDiagnosisId
    ∧ Effect.invokeGetPatientData
        ∉ (onRefresh s).snd ++ (fetchPatientHistory r (onRefresh s).fst).snd
    ∧ Effect.goBack
        ∉ (onRefresh s).snd ++ (fetchPatientHistory r (onRefresh s).fst).snd
    := by
  cases r <;> simp [onRefresh, fetchPatientHistory, mountInvokes]

/-- C8: pressing in on row x records pressedDiagnosisId = x; press-out and
press on any row clear it; none of the three handlers touches any other
state field, and none emits any effect (no data change, no navigation). -/
theorem rowPress_transient (s : ViewState) (x y : Int) :
    (handleRowPressIn x s).pressedDiagnosisId = some x
    ∧ (handleRowPressOut s).pressedDiagnosisId = none
    ∧ (handleRowPress y s).pressedDiagnosisId = none
    ∧ (handleRowPressIn x s).diagnoses = s.diagnoses
    ∧ (handleRowPressIn x s).patientDetails = s.patientDetails
    ∧ (handleRowPressIn x s).loading = s.loading
    ∧ (handleRowPressIn x s).refreshing = s.refreshing
    ∧ (handleRowPressOut s).diagnoses = s.diagnoses
    ∧ (handleRowPressOut s).patientDetails = s.patientDetails
    ∧ (handleRowPressOut s).loading = s.loading
    ∧ (handleRowPressOut s).refreshing = s.refreshing
    ∧ (handleRowPress y s).diagnoses = s.diagnoses
    ∧ (handleRowPress y s).patientDetails = s.patientDetails
    ∧ (handleRowPress y s).loading = s.loading
    ∧ (handleRowPress y s).refreshing = s.refreshing
    ∧ (step (Event.pressIn x) s).snd = []
    ∧ (step Event.pressOut s).snd = []
    ∧ (step (Event.press y) s).snd = [] :=
  ⟨rfl, rfl, rfl, rfl, rfl, rfl, rfl, rfl, rfl, rfl, rfl, rfl, rfl, rfl, rfl,
   rfl, rfl, rfl⟩

/-- C10: with empty diagnoses the history area renders only the empty-state
message with no RefreshControl, so pull-to-refresh is unreachable; the
RefreshControl is mounted exactly when diagnoses is non-empty. -/
theorem emptyDiagnoses_no_refresh (s : ViewState) :
    (s.diagnoses = [] →
      renderHistoryBlock s = HistoryBlock.emptyMessage noDiagnosesText
      ∧ hasRefreshControl (renderHistoryBlock s) = false)
    ∧ hasRefreshControl (renderHistoryBlock s) = !s.diagnoses.isEmpty := by
  cases h : s.diagnoses <;>
    simp [renderHistoryBlock, hasRefreshControl, h]

/-- Witness for C10 at the initial (empty-diagnoses) state. -/
theorem emptyDiagnoses_no_refresh_witness :
    renderHistoryBlock initialState
      = HistoryBlock.emptyMessage noDiagnosesText
    ∧ hasRefreshControl (renderHistoryBlock initialState) = false :=
  (emptyDiagnoses_no_refresh initialState).1 rfl
